import Mathlib

/-!
Verification of the flip-and-shoot-bird game core.

Shallow embedding of the game-update logic of
src/src/components/FlipShootGame.tsx (the main variant) and of the second
variant found in src/unnamed/part_000.  JavaScript numbers are modelled as
rationals; the per-tick random draws (obstacle top-height, the 2%-probability
enemy spawn) are modelled as explicit parameters of the tick, so every theorem
quantifies over them.  The one fallible operation in the source — the
unguarded read obstacles[obstacles.length - 1] in the obstacle-spawn check —
is modelled with Option: the tick returns none exactly when that read would
dereference a missing element.
-/

/-- Playfield width (CANVAS_WIDTH in the source). -/
def CANVAS_WIDTH : ℚ := 800

/-- Playfield height (CANVAS_HEIGHT in the source). -/
def CANVAS_HEIGHT : ℚ := 600

/-- Per-tick gravity increment, 0.6 in the source. -/
def GRAVITY : ℚ := 3 / 5

/-- Velocity impulse applied while the flap key is held. -/
def JUMP_FORCE : ℚ := -12

/-- Side length of the character. -/
def BIRD_SIZE : ℚ := 30

/-- Side length of a projectile. -/
def BULLET_SIZE : ℚ := 8

/-- Horizontal speed of a projectile. -/
def BULLET_SPEED : ℚ := 8

/-- Width of an obstacle pair. -/
def OBSTACLE_WIDTH : ℚ := 60

/-- Vertical gap of an obstacle pair. -/
def OBSTACLE_GAP : ℚ := 200

/-- Side length of an enemy. -/
def ENEMY_SIZE : ℚ := 25

structure Bird where
  x : ℚ
  y : ℚ
  velocity : ℚ
  size : ℚ
deriving DecidableEq

structure Bullet where
  x : ℚ
  y : ℚ
  velocity : ℚ
  size : ℚ
deriving DecidableEq

/-- The spawn-edge tag of an enemy. -/
inductive EdgeTag where
  | top
  | bottom
  | left
  | right
deriving DecidableEq

structure Enemy where
  x : ℚ
  y : ℚ
  velocityX : ℚ
  velocityY : ℚ
  size : ℚ
  type : EdgeTag
deriving DecidableEq

structure Obstacle where
  x : ℚ
  topHeight : ℚ
  gap : ℚ
  width : ℚ
deriving DecidableEq

structure GameState where
  bird : Bird
  bullets : List Bullet
  enemies : List Enemy
  obstacles : List Obstacle
  score : ℚ
  gameRunning : Bool
  gameOver : Bool
deriving DecidableEq

/-- Math.sqrt(dx*dx + dy*dy) < r, expressed without square roots: since
dx*dx + dy*dy is nonnegative, the comparison holds iff 0 < r and
dx*dx + dy*dy < r*r. -/
def distLt (dx dy r : ℚ) : Bool :=
  decide (0 < r) && decide (dx * dx + dy * dy < r * r)

/-- Bullet-enemy overlap test of the main variant: centers (position plus
half size) against the sum of the two half-size radii. -/
def bulletHitsEnemy (b : Bullet) (e : Enemy) : Bool :=
  distLt ((b.x + b.size / 2) - (e.x + e.size / 2))
         ((b.y + b.size / 2) - (e.y + e.size / 2))
         (b.size / 2 + e.size / 2)

/-- Bird-enemy overlap test of the main variant. -/
def birdHitsEnemy (bd : Bird) (e : Enemy) : Bool :=
  distLt ((bd.x + bd.size / 2) - (e.x + e.size / 2))
         ((bd.y + bd.size / 2) - (e.y + e.size / 2))
         (bd.size / 2 + e.size / 2)

/-- Bird-obstacle overlap test: horizontal spans overlap and the bird's
vertical extent leaves the gap. -/
def birdHitsObstacle (bd : Bird) (o : Obstacle) : Bool :=
  decide (o.x < bd.x + bd.size) && decide (bd.x < o.x + o.width) &&
    (decide (bd.y < o.topHeight) || decide (o.topHeight + o.gap < bd.y + bd.size))

/-- Inner enemy scan of the main variant's bullet loop.  The source iterates
enemyIndex from the highest index down to 0 and splices out the first enemy
hit; returns the enemy list with that enemy removed, or none when the bullet
hits no enemy.  The recursion gives priority to hits deeper in the list,
matching the descending index order. -/
def findHitRev (b : Bullet) : List Enemy → Option (List Enemy)
  | [] => none
  | e :: es =>
    match findHitRev b es with
    | some es2 => some (e :: es2)
    | none => if bulletHitsEnemy b e then some es else none

/-- Bullet loop of the main variant: bulletIndex runs from the highest index
down to 0, so the recursion processes the tail (the later bullets) first.
A bullet that hits is removed together with the enemy found by the
descending inner scan, and the score gains 10. -/
def processBullets : List Bullet → List Enemy → List Bullet × List Enemy × ℚ
  | [], es => ([], es, 0)
  | b :: bs, es =>
    let r := processBullets bs es
    match findHitRev b r.2.1 with
    | some es2 => (r.1, es2, r.2.2 + 10)
    | none => (b :: r.1, r.2.1, r.2.2)

/-- The gameOver flag computed by the main variant's checkCollisions: it
starts from false and only looks at bird-enemy contacts (against the enemy
list left over after the bullet loop) and bird-obstacle contacts. -/
def birdCollisionFlag (s : GameState) : Bool :=
  ((processBullets s.bullets s.enemies).2.1.any (fun e => birdHitsEnemy s.bird e)) ||
    (s.obstacles.any (fun o => birdHitsObstacle s.bird o))

/-- checkCollisions of the main variant.  Note that the returned state sets
gameOver to the locally computed flag and gameRunning to its negation,
unconditionally overwriting whatever the physics step stored in those
fields. -/
def checkCollisions (s : GameState) : GameState :=
  let r := processBullets s.bullets s.enemies
  { s with bullets := r.1, enemies := r.2.1, score := s.score + r.2.2,
           gameOver := birdCollisionFlag s, gameRunning := !birdCollisionFlag s }

/-- Bullet-enemy overlap test of the part_000 variant: raw positions (no
center offset) against the sum of the full sizes (not radii). -/
def bulletHitsEnemyV0 (b : Bullet) (e : Enemy) : Bool :=
  distLt (b.x - e.x) (b.y - e.y) (b.size + e.size)

/-- Inner forEach of the part_000 variant over the enemy list, for the bullet
captured at outer index i.  Array.prototype.forEach fixes the iteration count
at call time (the fuel) and visits ascending indices, skipping an index that
no longer exists after a splice; a hit splices the bullet list at i and the
enemy list at the current index and keeps scanning with the same captured
bullet (no break in the source). -/
def v0Inner (b : Bullet) (i : Nat) :
    Nat → Nat → List Bullet → List Enemy → ℚ → List Bullet × List Enemy × ℚ
  | _, 0, bullets, enemies, score => (bullets, enemies, score)
  | j, fuel + 1, bullets, enemies, score =>
    match enemies[j]? with
    | none => v0Inner b i (j + 1) fuel bullets enemies score
    | some e =>
      if bulletHitsEnemyV0 b e then
        v0Inner b i (j + 1) fuel (bullets.eraseIdx i) (enemies.eraseIdx j) (score + 10)
      else
        v0Inner b i (j + 1) fuel bullets enemies score

/-- Outer forEach of the part_000 variant over the bullet list, again with
the iteration count fixed at call time and vanished indices skipped. -/
def v0Outer : Nat → Nat → List Bullet → List Enemy → ℚ → List Bullet × List Enemy × ℚ
  | _, 0, bullets, enemies, score => (bullets, enemies, score)
  | i, fuel + 1, bullets, enemies, score =>
    match bullets[i]? with
    | none => v0Outer (i + 1) fuel bullets enemies score
    | some b =>
      let r := v0Inner b i 0 enemies.length bullets enemies score
      v0Outer (i + 1) fuel r.1 r.2.1 r.2.2

/-- checkCollisions of the part_000 variant.  Its bird-enemy and
bird-obstacle forEach callbacks return a game-over object from the callback,
which forEach discards, so they have no effect on the result; the returned
state only updates bullets, enemies and score and leaves the gameOver and
gameRunning flags untouched. -/
def checkCollisionsV0 (s : GameState) : GameState :=
  let r := v0Outer 0 s.bullets.length s.bullets s.enemies s.score
  { s with bullets := r.1, enemies := r.2.1, score := r.2.2 }

/-- Bird velocity after the input and gravity step: a held flap overwrites
the velocity with JUMP_FORCE, then gravity is added. -/
def integratedVel (flap : Bool) (bd : Bird) : ℚ :=
  (if flap then JUMP_FORCE else bd.velocity) + GRAVITY

/-- Bird y after integrating the new velocity, before any clamping. -/
def integratedY (flap : Bool) (bd : Bird) : ℚ :=
  bd.y + integratedVel flap bd

/-- Bird y after the ceiling clamp: integration below 0 is reset to 0. -/
def clampedY (flap : Bool) (bd : Bird) : ℚ :=
  if integratedY flap bd < 0 then 0 else integratedY flap bd

/-- Bird velocity after the ceiling clamp: reset to 0 exactly when the
ceiling clamp fired. -/
def clampedVel (flap : Bool) (bd : Bird) : ℚ :=
  if integratedY flap bd < 0 then 0 else integratedVel flap bd

/-- Physics step of the bird: integrate, then the ceiling clamp (y below 0
resets y and velocity to 0), then the floor clamp (y above
CANVAS_HEIGHT - size pins y there and sets gameOver / stops the run).
Returns the new bird together with the gameOver and gameRunning flags the
physics step stores. -/
def clampBird (flap : Bool) (bd : Bird) (over running : Bool) : Bird × Bool × Bool :=
  if CANVAS_HEIGHT - bd.size < clampedY flap bd then
    ({ bd with y := CANVAS_HEIGHT - bd.size, velocity := clampedVel flap bd }, true, false)
  else
    ({ bd with y := clampedY flap bd, velocity := clampedVel flap bd }, over, running)

/-- Whether the floor clamp of the physics step fires on this tick. -/
def lowerClampFires (flap : Bool) (bd : Bird) : Bool :=
  decide (CANVAS_HEIGHT - bd.size < clampedY flap bd)

/-- Bullet step: advance each bullet by its velocity, then keep only the
bullets with x < CANVAS_WIDTH. -/
def stepBullets (bs : List Bullet) : List Bullet :=
  (bs.map (fun b => { b with x := b.x + b.velocity })).filter
    (fun b => decide (b.x < CANVAS_WIDTH))

/-- Obstacle scroll: every obstacle moves 3 units to the left. -/
def scrollObstacles (L : List Obstacle) : List Obstacle :=
  L.map (fun o => { o with x := o.x - 3 })

/-- The obstacle appended by the spawn check; h is the random top-height
draw (Math.random() * 200 + 100 in the source). -/
def newObstacle (h : ℚ) : Obstacle :=
  { x := CANVAS_WIDTH, topHeight := h, gap := OBSTACLE_GAP, width := OBSTACLE_WIDTH }

/-- Obstacle spawn check.  The source reads obstacles[obstacles.length - 1]
without a guard once the count is below 4; on an empty list that read
dereferences a missing element, modelled as none. -/
def spawnObstacle (h : ℚ) (L : List Obstacle) : Option (List Obstacle) :=
  if L.length < 4 then
    match L.getLast? with
    | none => none
    | some lastOb =>
      some (if lastOb.x < CANVAS_WIDTH - 300 then L ++ [newObstacle h] else L)
  else
    some L

/-- An obstacle survives the off-screen filter unless x + width < 0. -/
def keepObstacle (o : Obstacle) : Bool :=
  !(decide (o.x + o.width < 0))

/-- Off-screen obstacle removal together with the number of obstacles
dropped; the source adds 1 to the score per dropped obstacle. -/
def pruneObstacles (L : List Obstacle) : List Obstacle × Nat :=
  (L.filter keepObstacle, L.countP (fun o => decide (o.x + o.width < 0)))

/-- Enemy step: advance each enemy by its velocity vector, then keep only
the enemies inside the playfield extended by their own size on every side. -/
def stepEnemies (es : List Enemy) : List Enemy :=
  (es.map (fun e => { e with x := e.x + e.velocityX, y := e.y + e.velocityY })).filter
    (fun e => decide (-e.size < e.x) && decide (e.x < CANVAS_WIDTH + e.size) &&
      decide (-e.size < e.y) && decide (e.y < CANVAS_HEIGHT + e.size))

/-- Per-tick nondeterminism: the flap key state, the random top-height draw
used if an obstacle spawns, and the enemy appended by the 2%-probability
spawn (none when the draw fails). -/
structure Env where
  flapHeld : Bool
  obstacleHeight : ℚ
  spawnEnemy : Option Enemy

/-- Enemy spawn: the randomly built enemy, when the 2% draw succeeds, is
pushed at the end of the enemy list. -/
def spawnStepEnemies (env : Env) (es : List Enemy) : List Enemy :=
  match env.spawnEnemy with
  | some e => es ++ [e]
  | none => es

/-- The candidate state produced by the physics and spawner passes, given
the obstacle list obs2 that came out of the spawn check. -/
def candidate (env : Env) (s : GameState) (obs2 : List Obstacle) : GameState :=
  let c := clampBird env.flapHeld s.bird s.gameOver s.gameRunning
  { s with bird := c.1, gameOver := c.2.1, gameRunning := c.2.2,
           bullets := stepBullets s.bullets,
           obstacles := (pruneObstacles obs2).1,
           score := s.score + ((pruneObstacles obs2).2 : ℚ),
           enemies := spawnStepEnemies env (stepEnemies s.enemies) }

/-- Physics and spawner passes of updateGame, in source order: bird physics
and clamps, bullet step, obstacle scroll, obstacle spawn check (the fallible
read), off-screen obstacle removal with score, enemy step, enemy spawn. -/
def physicsSpawn (env : Env) (s : GameState) : Option GameState :=
  (spawnObstacle env.obstacleHeight (scrollObstacles s.obstacles)).map (candidate env s)

/-- One tick of updateGame: a state that is not Running is returned
unchanged; otherwise the physics and spawner passes build the candidate
state and checkCollisions commits it. -/
def tick (env : Env) (s : GameState) : Option GameState :=
  if s.gameRunning then (physicsSpawn env s).map checkCollisions else some s

/-- The bullet appended by a fire input. -/
def newBullet (bd : Bird) : Bullet :=
  { x := bd.x + bd.size, y := bd.y + bd.size / 2,
    velocity := BULLET_SPEED, size := BULLET_SIZE }

/-- handleShoot: a no-op unless the run is active and the character alive;
otherwise appends exactly one bullet at the bird's muzzle. -/
def handleShoot (s : GameState) : GameState :=
  if !s.gameRunning || s.gameOver then s
  else { s with bullets := s.bullets ++ [newBullet s.bird] }

/-- The state installed by resetGame. -/
def initialState : GameState :=
  { bird := { x := 100, y := CANVAS_HEIGHT / 2, velocity := 0, size := BIRD_SIZE },
    bullets := [],
    enemies := [],
    obstacles := [{ x := 400, topHeight := 150, gap := OBSTACLE_GAP, width := OBSTACLE_WIDTH },
                  { x := 700, topHeight := 250, gap := OBSTACLE_GAP, width := OBSTACLE_WIDTH }],
    score := 0,
    gameRunning := true,
    gameOver := false }

/-- resetGame replaces whatever state is current with the initial running
state. -/
def resetGame (_s : GameState) : GameState := initialState

/-- States reachable from the reset state by any sequence of ticks (a tick
on a non-Running state returns it unchanged). -/
inductive Reachable : GameState → Prop
  | init : Reachable initialState
  | step (env : Env) (s t : GameState) :
      Reachable s → tick env s = some t → Reachable t

/-- Spacing relation between obstacles spawned earlier and later: every later
obstacle sits at least 300 units to the right.  Seeded by the two reset
obstacles (400 and 700) and by the spawn rule (append at 800 only when the
last obstacle has scrolled left of 500). -/
def gapOK (a b : Obstacle) : Prop := a.x + 300 ≤ b.x

/-- Invariant of the obstacle list maintained by every tick from the reset
state: nonempty, at most 4 entries, all of width 60, pairwise spaced by at
least 300, and either fewer than 4 entries (so the spawn check may fire) or
a last entry still at x at least 500. -/
def ObsInv (L : List Obstacle) : Prop :=
  L ≠ [] ∧ L.length ≤ 4 ∧ (∀ o ∈ L, o.width = 60) ∧ L.Pairwise gapOK ∧
    (L.length < 4 ∨ ∃ b, L.getLast? = some b ∧ 500 ≤ b.x)

/-- Environment with no flap, a fixed height draw and no enemy spawn, used
for concrete evaluations. -/
def quietEnv : Env := { flapHeld := false, obstacleHeight := 150, spawnEnemy := none }

/-- Running state heading into the floor: y 560 with downward velocity 20
integrates to 580.6, past CANVAS_HEIGHT - 30 = 570, so the floor clamp
fires; no enemy and no obstacle near the bird, so no collision fires. -/
def sFloor : GameState :=
  { bird := { x := 100, y := 560, velocity := 20, size := 30 },
    bullets := [], enemies := [],
    obstacles := [{ x := 200, topHeight := 150, gap := 200, width := 60 }],
    score := 0, gameRunning := true, gameOver := false }

def bulletA : Bullet := { x := 100, y := 100, velocity := 8, size := 8 }

def bulletB : Bullet := { x := 102, y := 100, velocity := 8, size := 8 }

def enemyAB : Enemy :=
  { x := 100, y := 100, velocityX := 0, velocityY := 0, size := 25, type := EdgeTag.top }

/-- State in which both bullets overlap the single enemy. -/
def sTwoBullets : GameState :=
  { bird := { x := 300, y := 300, velocity := 0, size := 30 },
    bullets := [bulletA, bulletB], enemies := [enemyAB], obstacles := [],
    score := 0, gameRunning := true, gameOver := false }

def enemyCalm : Enemy :=
  { x := 500, y := 500, velocityX := 0, velocityY := 0, size := 25, type := EdgeTag.top }

/-- State with one surviving bullet and one surviving enemy far apart. -/
def sCalm : GameState :=
  { bird := { x := 300, y := 300, velocity := 0, size := 30 },
    bullets := [bulletA], enemies := [enemyCalm],
    obstacles := [], score := 0, gameRunning := true, gameOver := false }

/-- Running state about to hit the ceiling: y 5 with velocity -20 integrates
to -14.4, below 0, so the ceiling clamp fires. -/
def sCeiling : GameState :=
  { bird := { x := 100, y := 5, velocity := -20, size := 30 },
    bullets := [], enemies := [],
    obstacles := [{ x := 600, topHeight := 150, gap := 200, width := 60 }],
    score := 0, gameRunning := true, gameOver := false }

/-- Running state with one obstacle one scroll step away from leaving the
screen: x -58 scrolls to -61 and -61 + 60 < 0, so it is dropped for a point. -/
def sDrop : GameState :=
  { bird := { x := 100, y := 300, velocity := 0, size := 30 },
    bullets := [], enemies := [],
    obstacles := [{ x := -58, topHeight := 150, gap := 200, width := 60 }],
    score := 5, gameRunning := true, gameOver := false }

/-- Running state with one obstacle crossing the left edge, for the C9
witness. -/
def sDrop9 : GameState :=
  { bird := { x := 100, y := 300, velocity := 0, size := 30 },
    bullets := [], enemies := [],
    obstacles := [{ x := -58, topHeight := 150, gap := 200, width := 60 }],
    score := 0, gameRunning := true, gameOver := false }

def enemyNear : Enemy :=
  { x := 100, y := 100, velocityX := 0, velocityY := 0, size := 25, type := EdgeTag.top }

def enemyFar : Enemy :=
  { x := 105, y := 100, velocityX := 0, velocityY := 0, size := 25, type := EdgeTag.top }

/-- State on which the two collision-engine variants disagree: the main
variant scans enemies from the highest index and removes enemyFar, the
part_000 variant scans forward and removes enemyNear. -/
def sVariants : GameState :=
  { bird := { x := 400, y := 300, velocity := 0, size := 30 },
    bullets := [bulletA], enemies := [enemyNear, enemyFar], obstacles := [],
    score := 0, gameRunning := true, gameOver := false }

/-- Running state holding one bullet whose advanced x lands exactly on the
playfield width. -/
def sEdgeBullet : GameState :=
  { bird := { x := 100, y := 300, velocity := 0, size := 30 },
    bullets := [{ x := 792, y := 100, velocity := 8, size := 8 }],
    enemies := [],
    obstacles := [{ x := 600, topHeight := 150, gap := 200, width := 60 }],
    score := 0, gameRunning := true, gameOver := false }

/-- Running state with one bullet kept and one dropped by the bullet step. -/
def sTwoFlight : GameState :=
  { bird := { x := 100, y := 300, velocity := 0, size := 30 },
    bullets := [{ x := 100, y := 100, velocity := 8, size := 8 },
                { x := 795, y := 50, velocity := 8, size := 8 }],
    enemies := [],
    obstacles := [{ x := 600, topHeight := 150, gap := 200, width := 60 }],
    score := 0, gameRunning := true, gameOver := false }

/-- A non-running state, for the no-op half of the fire operation. -/
def sIdle : GameState :=
  { bird := { x := 100, y := 300, velocity := 0, size := 30 },
    bullets := [], enemies := [], obstacles := [],
    score := 0, gameRunning := false, gameOver := false }

/-- The state one tick after sCeiling: the ceiling clamp pinned the bird at
y 0 with velocity 0, the obstacle scrolled to 597 (no spawn, 597 is not left
of 500), and no collision fired. -/
def sCeilingAfter : GameState :=
  { bird := { x := 100, y := 0, velocity := 0, size := 30 },
    bullets := [], enemies := [],
    obstacles := [{ x := 597, topHeight := 150, gap := 200, width := 60 }],
    score := 0, gameRunning := true, gameOver := false }

/-- The state one tick after sDrop: gravity moved the bird to 300.6, the
obstacle scrolled to -61 and was dropped for one point after a fresh
obstacle spawned at 800. -/
def sDropAfter : GameState :=
  { bird := { x := 100, y := 1503 / 5, velocity := 3 / 5, size := 30 },
    bullets := [], enemies := [],
    obstacles := [{ x := 800, topHeight := 150, gap := 200, width := 60 }],
    score := 6, gameRunning := true, gameOver := false }

/-- The obstacle list produced by the spawn check on the tick after sDrop9:
the scrolled obstacle at -61 followed by the fresh obstacle at 800. -/
def obsDrop9 : List Obstacle :=
  [{ x := -61, topHeight := 150, gap := 200, width := 60 },
   { x := 800, topHeight := 150, gap := 200, width := 60 }]

/-- The state one tick after sDrop9. -/
def sDrop9After : GameState :=
  { bird := { x := 100, y := 1503 / 5, velocity := 3 / 5, size := 30 },
    bullets := [], enemies := [],
    obstacles := [{ x := 800, topHeight := 150, gap := 200, width := 60 }],
    score := 1, gameRunning := true, gameOver := false }

/-- The state one tick after sTwoFlight: the bullet advanced to 108 is kept,
the one advanced to 803 is dropped, and the obstacle scrolled to 597. -/
def sTwoFlightAfter : GameState :=
  { bird := { x := 100, y := 1503 / 5, velocity := 3 / 5, size := 30 },
    bullets := [{ x := 108, y := 100, velocity := 8, size := 8 }],
    enemies := [],
    obstacles := [{ x := 597, topHeight := 150, gap := 200, width := 60 }],
    score := 0, gameRunning := true, gameOver := false }

lemma exists_getLast?_of_ne_nil {α : Type} (l : List α) (h : l ≠ []) :
    ∃ a, l.getLast? = some a :=
  ⟨l.getLast h, List.getLast?_eq_getLast_of_ne_nil h⟩

/-- A bullet whose descending enemy scan found nothing overlaps no enemy in
the scanned list. -/
lemma findHitRev_none {b : Bullet} :
    ∀ {es : List Enemy}, findHitRev b es = none →
      ∀ e ∈ es, bulletHitsEnemy b e = false := by
  intro es
  induction es with
  | nil => intro _ e he; simp at he
  | cons a t ih =>
    intro h e he
    unfold findHitRev at h
    cases hr : findHitRev b t with
    | some es2 => rw [hr] at h; simp at h
    | none =>
      rw [hr] at h
      by_cases hh : bulletHitsEnemy b a
      · simp [hh] at h
      · rcases List.mem_cons.mp he with rfl | he2
        · exact Bool.eq_false_iff.mpr hh
        · exact ih hr e he2

/-- A successful descending enemy scan removes exactly one enemy and keeps
the rest in order. -/
lemma findHitRev_some {b : Bullet} :
    ∀ {es es2 : List Enemy}, findHitRev b es = some es2 →
      es2.Sublist es ∧ es2.length + 1 = es.length := by
  intro es
  induction es with
  | nil => intro es2 h; simp [findHitRev] at h
  | cons a t ih =>
    intro es2 h
    unfold findHitRev at h
    cases hr : findHitRev b t with
    | some es3 =>
      rw [hr] at h
      obtain rfl : a :: es3 = es2 := by simpa using h
      obtain ⟨hs, hl⟩ := ih hr
      exact ⟨hs.cons₂ a, by simpa using by omega⟩
    | none =>
      rw [hr] at h
      by_cases hh : bulletHitsEnemy b a
      · rw [if_pos hh] at h
        obtain rfl : t = es2 := by simpa using h
        exact ⟨List.sublist_cons_self a t, by simp⟩
      · rw [if_neg hh] at h; simp at h

/-- Specification of the main variant's bullet loop: surviving bullets and
enemies are subsequences of the inputs, each hit removes exactly one bullet
and one enemy and is worth exactly 10 points, and no surviving bullet
overlaps a surviving enemy. -/
lemma processBullets_spec (bs : List Bullet) (es : List Enemy) :
    (processBullets bs es).1.Sublist bs ∧
    (processBullets bs es).2.1.Sublist es ∧
    (∃ k : ℕ, (processBullets bs es).1.length + k = bs.length ∧
      (processBullets bs es).2.1.length + k = es.length ∧
      (processBullets bs es).2.2 = 10 * k) ∧
    ∀ b ∈ (processBullets bs es).1, ∀ e ∈ (processBullets bs es).2.1,
      bulletHitsEnemy b e = false := by
  induction bs with
  | nil =>
    refine ⟨List.Sublist.refl _, List.Sublist.refl _,
      ⟨0, by simp [processBullets], by simp [processBullets], by simp [processBullets]⟩, ?_⟩
    intro b hb
    simp [processBullets] at hb
  | cons b bs ih =>
    obtain ⟨hb1, he1, ⟨k, hkb, hke, hks⟩, hno⟩ := ih
    cases hf : findHitRev b (processBullets bs es).2.1 with
    | none =>
      have hres : processBullets (b :: bs) es =
          (b :: (processBullets bs es).1, (processBullets bs es).2.1,
           (processBullets bs es).2.2) := by
        simp only [processBullets]
        rw [hf]
      rw [hres]
      refine ⟨hb1.cons₂ b, he1, ⟨k, by simpa using by omega, hke, hks⟩, ?_⟩
      intro b2 hb2 e he
      rcases List.mem_cons.mp hb2 with rfl | hb3
      · exact findHitRev_none hf e he
      · exact hno b2 hb3 e he
    | some es2 =>
      obtain ⟨hs2, hl2⟩ := findHitRev_some hf
      have hres : processBullets (b :: bs) es =
          ((processBullets bs es).1, es2, (processBullets bs es).2.2 + 10) := by
        simp only [processBullets]
        rw [hf]
      rw [hres]
      refine ⟨hb1.trans (List.sublist_cons_self b bs), hs2.trans he1,
        ⟨k + 1, ?_, ?_, ?_⟩, ?_⟩
      · show (processBullets bs es).1.length + (k + 1) = (b :: bs).length
        simp only [List.length_cons]
        omega
      · show es2.length + (k + 1) = es.length
        omega
      · show (processBullets bs es).2.2 + 10 = 10 * ((k + 1 : ℕ) : ℚ)
        rw [hks]; push_cast; ring
      · intro b2 hb2 e he
        exact hno b2 hb2 e (hs2.mem he)

/-- Under the spacing invariant, every obstacle sits at or left of the last
one. -/
lemma pairwise_le_last :
    ∀ {L : List Obstacle} {b : Obstacle}, L.Pairwise gapOK → L.getLast? = some b →
      ∀ a ∈ L, a.x ≤ b.x := by
  intro L
  induction L with
  | nil => intro b _ hl; simp at hl
  | cons x t ih =>
    intro b hp hl a ha
    cases t with
    | nil =>
      have hxb : x = b := by simpa using hl
      subst hxb
      have hax : a = x := by simpa using ha
      subst hax
      exact le_refl _
    | cons y u =>
      rw [List.getLast?_cons_cons] at hl
      have hb : b ∈ y :: u := List.mem_of_mem_getLast? hl
      rcases List.mem_cons.mp ha with rfl | ha2
      · have hrel := (List.pairwise_cons.mp hp).1 b hb
        unfold gapOK at hrel
        linarith
      · exact ih (List.pairwise_cons.mp hp).2 hl a ha2

/-- Filtering keeps the last element in last position whenever the predicate
holds on it. -/
lemma getLast?_filter_keep {p : Obstacle → Bool} :
    ∀ {L : List Obstacle} {b : Obstacle}, L.getLast? = some b → p b = true →
      (L.filter p).getLast? = some b := by
  intro L
  induction L with
  | nil => intro b hl _; simp at hl
  | cons x t ih =>
    intro b hl hb
    cases t with
    | nil =>
      have hxb : x = b := by simpa using hl
      subst hxb
      simp [List.filter_cons, hb]
    | cons y u =>
      rw [List.getLast?_cons_cons] at hl
      have hrec := ih hl hb
      rw [List.filter_cons]
      by_cases hpx : p x = true
      · rw [if_pos hpx]
        cases hF : (y :: u).filter p with
        | nil => rw [hF] at hrec; simp at hrec
        | cons f F2 =>
          rw [hF] at hrec
          rw [List.getLast?_cons_cons]
          exact hrec
      · rw [if_neg hpx]
        exact hrec

/-- In a 4-obstacle list satisfying the width and spacing facts whose last
entry has scrolled below 500, the first entry is already off screen, so the
off-screen filter leaves fewer than 4 obstacles. -/
lemma filter_lt_of_far {L1 : List Obstacle} {l1 : Obstacle}
    (hlen : L1.length = 4) (hw1 : ∀ o ∈ L1, o.width = 60)
    (hpw1 : L1.Pairwise gapOK) (hl1 : L1.getLast? = some l1)
    (hx : l1.x < 500) :
    (L1.filter keepObstacle).length < 4 := by
  rcases L1 with - | ⟨o1, L⟩
  · simp at hlen
  rcases L with - | ⟨o2, L⟩
  · simp at hlen
  rcases L with - | ⟨o3, L⟩
  · simp at hlen
  rcases L with - | ⟨o4, L⟩
  · simp at hlen
  rcases L with - | ⟨o5, L⟩
  case cons.cons.cons.cons.cons => simp at hlen
  have hl4 : o4 = l1 := by
    rw [List.getLast?_cons_cons, List.getLast?_cons_cons, List.getLast?_cons_cons] at hl1
    simpa using hl1
  subst hl4
  obtain ⟨h1, hp2⟩ := List.pairwise_cons.mp hpw1
  obtain ⟨h2, hp3⟩ := List.pairwise_cons.mp hp2
  obtain ⟨h3, -⟩ := List.pairwise_cons.mp hp3
  have g12 : gapOK o1 o2 := h1 o2 (by simp)
  have g23 : gapOK o2 o3 := h2 o3 (by simp)
  have g34 : gapOK o3 o4 := h3 o4 (by simp)
  unfold gapOK at g12 g23 g34
  have hwo1 : o1.width = 60 := hw1 o1 (by simp)
  have hko1 : keepObstacle o1 = false := by
    simp [keepObstacle, hwo1]
    linarith
  rw [List.filter_cons, if_neg (by simp [hko1])]
  have hle := List.length_filter_le keepObstacle [o2, o3, o4]
  simp at hle
  omega

/-- The reset obstacle list satisfies the invariant. -/
lemma obsInv_init : ObsInv initialState.obstacles := by
  refine ⟨by simp [initialState], by simp [initialState], ?_, ?_,
    Or.inl (by simp [initialState])⟩
  · intro o ho
    simp [initialState] at ho
    rcases ho with rfl | rfl
    · norm_num [OBSTACLE_WIDTH]
    · norm_num [OBSTACLE_WIDTH]
  · show List.Pairwise gapOK initialState.obstacles
    refine List.Pairwise.cons ?_ (List.Pairwise.cons ?_ List.Pairwise.nil)
    · intro b hb
      simp [initialState] at hb
      subst hb
      show (400 : ℚ) + 300 ≤ 700
      norm_num
    · intro b hb
      simp at hb

/-- One tick's obstacle pipeline (scroll, spawn check, off-screen filter)
preserves the obstacle invariant. -/
lemma obsInv_step {h : ℚ} {L L2 : List Obstacle} (hi : ObsInv L)
    (hsp : spawnObstacle h (scrollObstacles L) = some L2) :
    ObsInv (L2.filter keepObstacle) := by
  obtain ⟨hne, hlen, hw, hpw, hK⟩ := hi
  have hlen1 : (scrollObstacles L).length = L.length := by
    simp [scrollObstacles]
  have hne1 : scrollObstacles L ≠ [] := by
    intro hc
    exact hne (by simpa [scrollObstacles] using hc)
  have hw1 : ∀ o ∈ scrollObstacles L, o.width = 60 := by
    intro o ho
    simp only [scrollObstacles, List.mem_map] at ho
    obtain ⟨a, ha, rfl⟩ := ho
    exact hw a ha
  have hpw1 : (scrollObstacles L).Pairwise gapOK := by
    refine List.pairwise_map.mpr (hpw.imp ?_)
    intro a b hab
    unfold gapOK at hab ⊢
    show a.x - 3 + 300 ≤ b.x - 3
    linarith
  obtain ⟨l1, hl1⟩ := exists_getLast?_of_ne_nil (scrollObstacles L) hne1
  have hl1mem : l1 ∈ scrollObstacles L := List.mem_of_mem_getLast? hl1
  unfold spawnObstacle at hsp
  by_cases hlt : (scrollObstacles L).length < 4
  · rw [if_pos hlt, hl1] at hsp
    change (some (if l1.x < CANVAS_WIDTH - 300 then scrollObstacles L ++ [newObstacle h]
      else scrollObstacles L) : Option (List Obstacle)) = some L2 at hsp
    by_cases hx : l1.x < CANVAS_WIDTH - 300
    · rw [if_pos hx] at hsp
      obtain rfl : scrollObstacles L ++ [newObstacle h] = L2 := by simpa using hsp
      have hx5 : l1.x < 500 := by
        norm_num [CANVAS_WIDTH] at hx
        exact hx
      have hkN : keepObstacle (newObstacle h) = true := by
        norm_num [keepObstacle, newObstacle, CANVAS_WIDTH, OBSTACLE_WIDTH]
      have hfilter : (scrollObstacles L ++ [newObstacle h]).filter keepObstacle =
          (scrollObstacles L).filter keepObstacle ++ [newObstacle h] := by
        rw [List.filter_append]
        simp [hkN]
      rw [hfilter]
      have hpwA : (scrollObstacles L ++ [newObstacle h]).Pairwise gapOK := by
        rw [List.pairwise_append]
        refine ⟨hpw1, List.pairwise_singleton _ _, ?_⟩
        intro a ha b hb
        simp at hb
        subst hb
        have hax := pairwise_le_last hpw1 hl1 a ha
        show a.x + 300 ≤ (newObstacle h).x
        have : (newObstacle h).x = 800 := by norm_num [newObstacle, CANVAS_WIDTH]
        rw [this]
        linarith
      refine ⟨by simp, ?_, ?_, ?_, ?_⟩
      · have hf := List.length_filter_le keepObstacle (scrollObstacles L)
        simp only [List.length_append, List.length_cons, List.length_nil]
        omega
      · intro o ho
        rcases List.mem_append.mp ho with h1 | h2
        · exact hw1 o (List.mem_of_mem_filter h1)
        · have : o = newObstacle h := by simpa using h2
          subst this
          norm_num [newObstacle, OBSTACLE_WIDTH]
      · exact hpwA.sublist ((List.filter_sublist _).append (List.Sublist.refl _))
      · refine Or.inr ⟨newObstacle h, ?_, ?_⟩
        · rw [List.getLast?_concat]
        · norm_num [newObstacle, CANVAS_WIDTH]
    · rw [if_neg hx] at hsp
      obtain rfl : scrollObstacles L = L2 := by simpa using hsp
      have hx5 : (500 : ℚ) ≤ l1.x := by
        norm_num [CANVAS_WIDTH] at hx
        exact hx
      have hwl1 : l1.width = 60 := hw1 l1 hl1mem
      have hkl1 : keepObstacle l1 = true := by
        simp [keepObstacle, hwl1]
        linarith
      have hlastF := getLast?_filter_keep hl1 hkl1
      refine ⟨?_, ?_, ?_, hpw1.sublist (List.filter_sublist _), Or.inr ⟨l1, hlastF, hx5⟩⟩
      · intro hc
        rw [hc] at hlastF
        simp at hlastF
      · have hf := List.length_filter_le keepObstacle (scrollObstacles L)
        omega
      · intro o ho
        exact hw1 o (List.mem_of_mem_filter ho)
  · rw [if_neg hlt] at hsp
    obtain rfl : scrollObstacles L = L2 := by simpa using hsp
    have h4 : L.length = 4 := by omega
    have hKr : ∃ b, L.getLast? = some b ∧ (500 : ℚ) ≤ b.x := by
      rcases hK with hK | hK
      · omega
      · exact hK
    obtain ⟨b, hb, hbx⟩ := hKr
    have hl1b : (scrollObstacles L).getLast? = some { b with x := b.x - 3 } := by
      unfold scrollObstacles
      rw [List.getLast?_map, hb]
      rfl
    have hl1eq : l1 = { b with x := b.x - 3 } := Option.some.inj (hl1.symm.trans hl1b)
    have hl1x : l1.x = b.x - 3 := by rw [hl1eq]
    have hwl1 : l1.width = 60 := hw1 l1 hl1mem
    have hkl1 : keepObstacle l1 = true := by
      simp [keepObstacle, hwl1]
      linarith
    have hlastF := getLast?_filter_keep hl1 hkl1
    have hFne : (scrollObstacles L).filter keepObstacle ≠ [] := by
      intro hc
      rw [hc] at hlastF
      simp at hlastF
    refine ⟨hFne, ?_, ?_, hpw1.sublist (List.filter_sublist _), ?_⟩
    · have hf := List.length_filter_le keepObstacle (scrollObstacles L)
      omega
    · intro o ho
      exact hw1 o (List.mem_of_mem_filter ho)
    · by_cases h5 : (500 : ℚ) ≤ l1.x
      · exact Or.inr ⟨l1, hlastF, h5⟩
      · refine Or.inl ?_
        refine filter_lt_of_far (by omega) hw1 hpw1 hl1 ?_
        linarith

/-- A tick on a non-Running state returns it unchanged. -/
lemma tick_not_running {env : Env} {s t : GameState} (hr : s.gameRunning = false)
    (h : tick env s = some t) : t = s := by
  unfold tick at h
  rw [hr] at h
  simp at h
  exact h.symm

/-- A successful tick on a Running state is checkCollisions applied to the
candidate state built from the spawn check's obstacle list. -/
lemma tick_running_eq {env : Env} {s t : GameState} (hr : s.gameRunning = true)
    (h : tick env s = some t) :
    ∃ obs2, spawnObstacle env.obstacleHeight (scrollObstacles s.obstacles) = some obs2 ∧
      t = checkCollisions (candidate env s obs2) := by
  unfold tick at h
  rw [if_pos hr] at h
  unfold physicsSpawn at h
  rw [Option.map_map] at h
  rcases Option.map_eq_some'.mp h with ⟨obs2, hobs, hco⟩
  exact ⟨obs2, hobs, hco.symm⟩

lemma checkCollisions_obstacles (s : GameState) :
    (checkCollisions s).obstacles = s.obstacles := rfl

lemma checkCollisions_bird (s : GameState) :
    (checkCollisions s).bird = s.bird := rfl

lemma candidate_obstacles (env : Env) (s : GameState) (obs2 : List Obstacle) :
    (candidate env s obs2).obstacles = obs2.filter keepObstacle := rfl

/-- A tick preserves the obstacle invariant. -/
lemma tick_obsInv {env : Env} {s t : GameState} (hi : ObsInv s.obstacles)
    (h : tick env s = some t) : ObsInv t.obstacles := by
  by_cases hr : s.gameRunning = true
  · obtain ⟨obs2, hobs, rfl⟩ := tick_running_eq hr h
    rw [checkCollisions_obstacles, candidate_obstacles]
    exact obsInv_step hi hobs
  · rw [tick_not_running (Bool.eq_false_iff.mpr hr) h]
    exact hi

/-- The spawn check succeeds on every nonempty obstacle list. -/
lemma spawnObstacle_isSome {h : ℚ} {L : List Obstacle} (hne : L ≠ []) :
    (spawnObstacle h L).isSome = true := by
  obtain ⟨a, ha⟩ := exists_getLast?_of_ne_nil L hne
  unfold spawnObstacle
  by_cases hlt : L.length < 4
  · rw [if_pos hlt, ha]
    rfl
  · rw [if_neg hlt]
    rfl

/-- A state whose obstacle list satisfies the invariant can always tick. -/
lemma tick_isSome (env : Env) {s : GameState} (hi : ObsInv s.obstacles) :
    (tick env s).isSome = true := by
  unfold tick
  by_cases hr : s.gameRunning = true
  · rw [if_pos hr]
    unfold physicsSpawn
    have hne1 : scrollObstacles s.obstacles ≠ [] := by
      intro hc
      exact hi.1 (by simpa [scrollObstacles] using hc)
    have hs := spawnObstacle_isSome (h := env.obstacleHeight) hne1
    cases hsp : spawnObstacle env.obstacleHeight (scrollObstacles s.obstacles) with
    | none => rw [hsp] at hs; simp at hs
    | some L2 => rfl
  · rw [if_neg hr]
    rfl

/-- Every state reachable from reset satisfies the obstacle invariant. -/
lemma reachable_obsInv {s : GameState} (h : Reachable s) : ObsInv s.obstacles := by
  induction h with
  | init => exact obsInv_init
  | step env s t hs htick ih => exact tick_obsInv ih htick

lemma clampBird_size (flap : Bool) (bd : Bird) (o r : Bool) :
    (clampBird flap bd o r).1.size = bd.size := by
  unfold clampBird
  split_ifs <;> rfl

lemma clampBird_velocity (flap : Bool) (bd : Bird) (o r : Bool) :
    (clampBird flap bd o r).1.velocity = clampedVel flap bd := by
  unfold clampBird
  split_ifs <;> rfl

/-- After both clamps the bird's y is inside the playfield whenever the
playfield can hold the bird at all. -/
lemma clampBird_y_range (flap : Bool) (bd : Bird) (o r : Bool)
    (h0 : (0 : ℚ) ≤ CANVAS_HEIGHT - bd.size) :
    0 ≤ (clampBird flap bd o r).1.y ∧
      (clampBird flap bd o r).1.y ≤ CANVAS_HEIGHT - (clampBird flap bd o r).1.size := by
  rw [clampBird_size]
  unfold clampBird
  by_cases h2 : CANVAS_HEIGHT - bd.size < clampedY flap bd
  · rw [if_pos h2]
    exact ⟨h0, le_refl _⟩
  · rw [if_neg h2]
    refine ⟨?_, not_lt.mp h2⟩
    show (0 : ℚ) ≤ clampedY flap bd
    unfold clampedY
    split_ifs with h1
    · exact le_refl 0
    · exact not_lt.mp h1

lemma processBullets_no_enemies (bs : List Bullet) : processBullets bs [] = (bs, [], 0) := by
  induction bs with
  | nil => rfl
  | cons b bs ih =>
    simp only [processBullets]
    rw [ih]
    rfl

/-- C1: evaluation of the code at the failing input.  On sFloor the floor
clamp of the physics step fires (y integrates past CANVAS_HEIGHT - size),
yet the state committed at the end of that same tick has gameOver false and
gameRunning true: checkCollisions rebuilds the phase from bird-enemy and
bird-obstacle contacts alone and overwrites the clamp's Over marking, so
the claimed Running-to-Over transition does not happen. -/
theorem claim_C1_floor_clamp_overwritten :
    lowerClampFires false sFloor.bird = true ∧
    Option.map GameState.gameOver (tick quietEnv sFloor) = some false ∧
    Option.map GameState.gameRunning (tick quietEnv sFloor) = some true := by
  refine ⟨?_, ?_, ?_⟩
  · norm_num [lowerClampFires, clampedY, integratedY, integratedVel, sFloor,
      CANVAS_HEIGHT, GRAVITY, JUMP_FORCE]
  · norm_num [tick, physicsSpawn, candidate, spawnObstacle, scrollObstacles, newObstacle,
      keepObstacle, pruneObstacles, stepBullets, stepEnemies, spawnStepEnemies, clampBird,
      clampedY, clampedVel, integratedY, integratedVel, checkCollisions, birdCollisionFlag,
      processBullets, findHitRev, bulletHitsEnemy, birdHitsEnemy, birdHitsObstacle, distLt,
      quietEnv, sFloor, CANVAS_WIDTH, CANVAS_HEIGHT, GRAVITY, JUMP_FORCE, BIRD_SIZE,
      BULLET_SIZE, BULLET_SPEED, OBSTACLE_WIDTH, OBSTACLE_GAP, ENEMY_SIZE,
      List.getLast?, List.getLast, List.filter, List.countP, List.countP.go]
  · norm_num [tick, physicsSpawn, candidate, spawnObstacle, scrollObstacles, newObstacle,
      keepObstacle, pruneObstacles, stepBullets, stepEnemies, spawnStepEnemies, clampBird,
      clampedY, clampedVel, integratedY, integratedVel, checkCollisions, birdCollisionFlag,
      processBullets, findHitRev, bulletHitsEnemy, birdHitsEnemy, birdHitsObstacle, distLt,
      quietEnv, sFloor, CANVAS_WIDTH, CANVAS_HEIGHT, GRAVITY, JUMP_FORCE, BIRD_SIZE,
      BULLET_SIZE, BULLET_SPEED, OBSTACLE_WIDTH, OBSTACLE_GAP, ENEMY_SIZE,
      List.getLast?, List.getLast, List.filter, List.countP, List.countP.go]

/-- C2: counterexample to the claim as stated.  Both bullets of sTwoBullets
are within the radius sum of the single enemy, yet the committed state keeps
bulletA (only bulletB, scanned first, consumes the enemy) and the score
rises by 10, not by 10 for each overlapping pair. -/
theorem claim_C2_counterexample :
    bulletHitsEnemy bulletA enemyAB = true ∧
    bulletHitsEnemy bulletB enemyAB = true ∧
    checkCollisions sTwoBullets =
      { sTwoBullets with bullets := [bulletA], enemies := [], score := 10,
                         gameOver := false, gameRunning := true } := by
  norm_num [checkCollisions, birdCollisionFlag, processBullets, findHitRev,
    bulletHitsEnemy, birdHitsEnemy, birdHitsObstacle, distLt, sTwoBullets,
    bulletA, bulletB, enemyAB]

/-- C2 (amended): in the collision step, surviving bullets and enemies are
subsequences of the originals, every hit removes exactly one bullet and one
enemy and adds exactly 10 to the score (so no bullet scores twice and no
enemy is consumed twice), and no surviving bullet still overlaps a surviving
enemy; a bullet whose overlapping enemies were all consumed by later-indexed
bullets is, however, retained. -/
theorem claim_C2_collision_step (s : GameState) :
    (checkCollisions s).bullets.Sublist s.bullets ∧
    (checkCollisions s).enemies.Sublist s.enemies ∧
    (∃ k : ℕ, (checkCollisions s).bullets.length + k = s.bullets.length ∧
      (checkCollisions s).enemies.length + k = s.enemies.length ∧
      (checkCollisions s).score = s.score + 10 * k) ∧
    ∀ b ∈ (checkCollisions s).bullets, ∀ e ∈ (checkCollisions s).enemies,
      bulletHitsEnemy b e = false := by
  obtain ⟨h1, h2, ⟨k, hk1, hk2, hk3⟩, h4⟩ := processBullets_spec s.bullets s.enemies
  have hb : (checkCollisions s).bullets = (processBullets s.bullets s.enemies).1 := rfl
  have he : (checkCollisions s).enemies = (processBullets s.bullets s.enemies).2.1 := rfl
  have hs : (checkCollisions s).score =
      s.score + (processBullets s.bullets s.enemies).2.2 := rfl
  rw [hb, he, hs]
  exact ⟨h1, h2, ⟨k, hk1, hk2, by rw [hk3]⟩, h4⟩

/-- C2 witness: the amended collision-step theorem applied to the concrete
state sCalm, whose bullet and enemy both survive because they never overlap. -/
theorem claim_C2_collision_step_witness :
    (checkCollisions sCalm).bullets.Sublist sCalm.bullets ∧
    bulletHitsEnemy bulletA enemyCalm = false :=
  ⟨(claim_C2_collision_step sCalm).1,
   (claim_C2_collision_step sCalm).2.2.2 bulletA
     (by norm_num [checkCollisions, birdCollisionFlag, processBullets, findHitRev,
       bulletHitsEnemy, birdHitsEnemy, birdHitsObstacle, distLt, sCalm, bulletA, enemyCalm])
     enemyCalm
     (by norm_num [checkCollisions, birdCollisionFlag, processBullets, findHitRev,
       bulletHitsEnemy, birdHitsEnemy, birdHitsObstacle, distLt, sCalm, bulletA, enemyCalm])⟩

/-- C3: resetting from any state yields exactly the initial running state:
bird at (100, 300) with velocity 0 and size 30, no bullets, no enemies, the
two seeded obstacles at x 400 height 150 and x 700 height 250 with gap 200
and width 60, score 0, gameRunning true, gameOver false. -/
theorem claim_C3_reset (s : GameState) :
    resetGame s =
      { bird := { x := 100, y := 300, velocity := 0, size := 30 },
        bullets := [], enemies := [],
        obstacles := [{ x := 400, topHeight := 150, gap := 200, width := 60 },
                      { x := 700, topHeight := 250, gap := 200, width := 60 }],
        score := 0, gameRunning := true, gameOver := false } := by
  unfold resetGame
  norm_num [initialState, CANVAS_HEIGHT, BIRD_SIZE, OBSTACLE_GAP, OBSTACLE_WIDTH]

/-- C4: a tick keeps the bird's y inside [0, CANVAS_HEIGHT - size], and when
the ceiling clamp fires (integrated y below 0) the committed vertical
velocity is 0. -/
theorem claim_C4_y_clamped (env : Env) (s t : GameState)
    (h : tick env s = some t)
    (hy0 : 0 ≤ s.bird.y) (hy1 : s.bird.y ≤ CANVAS_HEIGHT - s.bird.size) :
    (0 ≤ t.bird.y ∧ t.bird.y ≤ CANVAS_HEIGHT - t.bird.size) ∧
    (s.gameRunning = true → integratedY env.flapHeld s.bird < 0 →
      t.bird.velocity = 0) := by
  by_cases hr : s.gameRunning = true
  · obtain ⟨obs2, hobs, rfl⟩ := tick_running_eq hr h
    have hbd : (checkCollisions (candidate env s obs2)).bird =
        (clampBird env.flapHeld s.bird s.gameOver s.gameRunning).1 := rfl
    rw [hbd]
    constructor
    · exact clampBird_y_range env.flapHeld s.bird _ _ (by linarith)
    · intro _ h1
      rw [clampBird_velocity]
      unfold clampedVel
      rw [if_pos h1]
  · rw [tick_not_running (Bool.eq_false_iff.mpr hr) h]
    exact ⟨⟨hy0, hy1⟩, fun hrun _ => absurd hrun hr⟩

/-- C4 witness: the theorem applied to the concrete ceiling-bound state
sCeiling, whose tick commits the bird at y 0 with velocity 0. -/
theorem claim_C4_y_clamped_witness :
    (0 ≤ sCeilingAfter.bird.y ∧
      sCeilingAfter.bird.y ≤ CANVAS_HEIGHT - sCeilingAfter.bird.size) ∧
    sCeilingAfter.bird.velocity = 0 := by
  have h := claim_C4_y_clamped quietEnv sCeiling sCeilingAfter
    (by norm_num [tick, physicsSpawn, candidate, spawnObstacle, scrollObstacles,
      newObstacle, keepObstacle, pruneObstacles, stepBullets, stepEnemies,
      spawnStepEnemies, clampBird, clampedY, clampedVel, integratedY, integratedVel,
      checkCollisions, birdCollisionFlag, processBullets, findHitRev, bulletHitsEnemy,
      birdHitsEnemy, birdHitsObstacle, distLt, quietEnv, sCeiling, sCeilingAfter,
      CANVAS_WIDTH, CANVAS_HEIGHT, GRAVITY, JUMP_FORCE, BIRD_SIZE, BULLET_SIZE,
      BULLET_SPEED, OBSTACLE_WIDTH, OBSTACLE_GAP, ENEMY_SIZE,
      List.getLast?, List.getLast, List.filter, List.countP, List.countP.go])
    (by norm_num [sCeiling])
    (by norm_num [sCeiling, CANVAS_HEIGHT])
  exact ⟨h.1, h.2 rfl (by norm_num [integratedY, integratedVel, quietEnv, sCeiling,
    GRAVITY, JUMP_FORCE])⟩

/-- C5: across every tick on a Running state the score only grows, by one
unit per dropped obstacle plus ten per bullet-enemy hit, so it is monotone
and never reset to 0 by a tick; only the reset operation zeroes it. -/
theorem claim_C5_score_monotone (env : Env) (s t : GameState)
    (hr : s.gameRunning = true) (h : tick env s = some t) :
    (∃ d k : ℕ, t.score = s.score + d + 10 * k) ∧ s.score ≤ t.score ∧
    (resetGame s).score = 0 := by
  obtain ⟨obs2, hobs, rfl⟩ := tick_running_eq hr h
  have hsc : (checkCollisions (candidate env s obs2)).score =
      (candidate env s obs2).score +
        (processBullets (candidate env s obs2).bullets
          (candidate env s obs2).enemies).2.2 := rfl
  obtain ⟨-, -, ⟨k, -, -, hk⟩, -⟩ :=
    processBullets_spec (candidate env s obs2).bullets (candidate env s obs2).enemies
  have hcs : (candidate env s obs2).score =
      s.score + ((pruneObstacles obs2).2 : ℚ) := rfl
  refine ⟨⟨(pruneObstacles obs2).2, k, ?_⟩, ?_, rfl⟩
  · rw [hsc, hk, hcs]
  · rw [hsc, hk, hcs]
    have h1 : (0 : ℚ) ≤ ((pruneObstacles obs2).2 : ℚ) := Nat.cast_nonneg _
    have h2 : (0 : ℚ) ≤ (k : ℚ) := Nat.cast_nonneg _
    linarith

/-- C5 witness: the tick on sDrop drops one obstacle and raises the score
from 5 to 6. -/
theorem claim_C5_score_monotone_witness :
    (∃ d k : ℕ, sDropAfter.score = sDrop.score + d + 10 * k) ∧
    sDrop.score ≤ sDropAfter.score ∧ (resetGame sDrop).score = 0 :=
  claim_C5_score_monotone quietEnv sDrop sDropAfter rfl
    (by norm_num [tick, physicsSpawn, candidate, spawnObstacle, scrollObstacles,
      newObstacle, keepObstacle, pruneObstacles, stepBullets, stepEnemies,
      spawnStepEnemies, clampBird, clampedY, clampedVel, integratedY, integratedVel,
      checkCollisions, birdCollisionFlag, processBullets, findHitRev, bulletHitsEnemy,
      birdHitsEnemy, birdHitsObstacle, distLt, quietEnv, sDrop, sDropAfter,
      CANVAS_WIDTH, CANVAS_HEIGHT, GRAVITY, JUMP_FORCE, BIRD_SIZE, BULLET_SIZE,
      BULLET_SPEED, OBSTACLE_WIDTH, OBSTACLE_GAP, ENEMY_SIZE,
      List.getLast?, List.getLast, List.filter, List.countP, List.countP.go])

/-- C6: the two collision-engine variants in the source are not behaviorally
equivalent: on sVariants (one bullet overlapping both enemies under both
metrics) the main variant removes the enemy with the highest index while the
part_000 variant removes the one with the lowest, so the committed states
differ. -/
theorem claim_C6_variants_inequivalent :
    checkCollisions sVariants ≠ checkCollisionsV0 sVariants := by
  intro hcontra
  exact absurd (congrArg GameState.enemies hcontra)
    (by norm_num [checkCollisions, checkCollisionsV0, birdCollisionFlag, processBullets,
      findHitRev, v0Outer, v0Inner, bulletHitsEnemy, bulletHitsEnemyV0, birdHitsEnemy,
      birdHitsObstacle, distLt, sVariants, bulletA, enemyNear, enemyFar, List.eraseIdx])

/-- C7: every state reachable from the reset state by ticks has a nonempty
obstacle list, the read of the most recently spawned obstacle (last element
of the scrolled list) is always some, and the tick itself never fails. -/
theorem claim_C7_obstacles_nonempty (s : GameState) (env : Env) (h : Reachable s) :
    s.obstacles ≠ [] ∧
    ((scrollObstacles s.obstacles).getLast?).isSome = true ∧
    (tick env s).isSome = true := by
  have hi := reachable_obsInv h
  refine ⟨hi.1, ?_, tick_isSome env hi⟩
  have hne1 : scrollObstacles s.obstacles ≠ [] := by
    intro hc
    exact hi.1 (by simpa [scrollObstacles] using hc)
  obtain ⟨a, ha⟩ := exists_getLast?_of_ne_nil _ hne1
  rw [ha]
  rfl

/-- C7 witness: the theorem applied to the reset state itself. -/
theorem claim_C7_obstacles_nonempty_witness :
    initialState.obstacles ≠ [] ∧
    ((scrollObstacles initialState.obstacles).getLast?).isSome = true ∧
    (tick quietEnv initialState).isSome = true :=
  claim_C7_obstacles_nonempty initialState quietEnv Reachable.init

/-- C8: counterexample to the claim as stated.  The bullet of sEdgeBullet
advances to x = CANVAS_WIDTH exactly, which does not exceed the playfield
width, yet the committed state drops it: the source keeps only bullets with
x strictly below the width. -/
theorem claim_C8_counterexample :
    sEdgeBullet.bullets.map (fun b => b.x + b.velocity) = [CANVAS_WIDTH] ∧
    Option.map GameState.bullets (tick quietEnv sEdgeBullet) = some [] := by
  constructor
  · norm_num [sEdgeBullet, CANVAS_WIDTH]
  · norm_num [tick, physicsSpawn, candidate, spawnObstacle, scrollObstacles, newObstacle,
      keepObstacle, pruneObstacles, stepBullets, stepEnemies, spawnStepEnemies, clampBird,
      clampedY, clampedVel, integratedY, integratedVel, checkCollisions, birdCollisionFlag,
      processBullets, findHitRev, bulletHitsEnemy, birdHitsEnemy, birdHitsObstacle, distLt,
      quietEnv, sEdgeBullet, CANVAS_WIDTH, CANVAS_HEIGHT, GRAVITY, JUMP_FORCE,
      BIRD_SIZE, BULLET_SIZE, BULLET_SPEED, OBSTACLE_WIDTH, OBSTACLE_GAP, ENEMY_SIZE,
      List.getLast?, List.getLast, List.filter, List.countP, List.countP.go]

/-- C8 (amended): on a tick of a Running state with no enemies in play (so
the collision step removes no bullet), every bullet advances by its
velocity, and the committed state retains exactly the bullets whose advanced
x is strictly below the playfield width, with y, velocity and size
unchanged; a bullet landing at or beyond the width (including exactly at it)
is dropped.  With enemies present the collision step may remove further
bullets. -/
theorem claim_C8_bullet_step (env : Env) (s t : GameState)
    (hr : s.gameRunning = true) (hne : s.enemies = []) (hspw : env.spawnEnemy = none)
    (h : tick env s = some t) :
    t.bullets = (s.bullets.map (fun b => { b with x := b.x + b.velocity })).filter
      (fun b => decide (b.x < CANVAS_WIDTH)) := by
  obtain ⟨obs2, hobs, rfl⟩ := tick_running_eq hr h
  have hce : (candidate env s obs2).enemies = [] := by
    show spawnStepEnemies env (stepEnemies s.enemies) = []
    rw [hne]
    simp [spawnStepEnemies, hspw, stepEnemies]
  have hb : (checkCollisions (candidate env s obs2)).bullets =
      (processBullets (candidate env s obs2).bullets
        (candidate env s obs2).enemies).1 := rfl
  rw [hb, hce, processBullets_no_enemies]
  rfl

/-- C8 witness: the amended bullet-step theorem on sTwoFlight, whose bullet
at 100 advances to 108 and is kept while the one at 795 advances to 803 and
is dropped. -/
theorem claim_C8_bullet_step_witness :
    sTwoFlightAfter.bullets =
      (sTwoFlight.bullets.map (fun b => { b with x := b.x + b.velocity })).filter
        (fun b => decide (b.x < CANVAS_WIDTH)) :=
  claim_C8_bullet_step quietEnv sTwoFlight sTwoFlightAfter rfl rfl rfl
    (by norm_num [tick, physicsSpawn, candidate, spawnObstacle, scrollObstacles,
      newObstacle, keepObstacle, pruneObstacles, stepBullets, stepEnemies,
      spawnStepEnemies, clampBird, clampedY, clampedVel, integratedY, integratedVel,
      checkCollisions, birdCollisionFlag, processBullets, findHitRev, bulletHitsEnemy,
      birdHitsEnemy, birdHitsObstacle, distLt, quietEnv, sTwoFlight, sTwoFlightAfter,
      CANVAS_WIDTH, CANVAS_HEIGHT, GRAVITY, JUMP_FORCE, BIRD_SIZE, BULLET_SIZE,
      BULLET_SPEED, OBSTACLE_WIDTH, OBSTACLE_GAP, ENEMY_SIZE,
      List.getLast?, List.getLast, List.filter, List.countP, List.countP.go])

/-- C9: on a tick of a Running state whose spawn check produced the obstacle
list obs2, the committed obstacle list is exactly obs2 without the obstacles
with x + width < 0, and the committed score is the old score plus one per
obstacle so dropped plus ten per bullet-enemy hit; obstacles not fully past
the left edge are all retained and award nothing. -/
theorem claim_C9_obstacle_drop (env : Env) (s t : GameState) (obs2 : List Obstacle)
    (hr : s.gameRunning = true)
    (hsp : spawnObstacle env.obstacleHeight (scrollObstacles s.obstacles) = some obs2)
    (h : tick env s = some t) :
    t.obstacles = obs2.filter keepObstacle ∧
    (∃ k : ℕ, t.score =
      s.score + (obs2.countP (fun o => decide (o.x + o.width < 0)) : ℚ) + 10 * k) := by
  obtain ⟨obs2b, hobs, rfl⟩ := tick_running_eq hr h
  have hbb : obs2b = obs2 := by
    rw [hobs] at hsp
    exact Option.some.inj hsp
  subst hbb
  constructor
  · rw [checkCollisions_obstacles, candidate_obstacles]
  · have hsc : (checkCollisions (candidate env s obs2b)).score =
        (candidate env s obs2b).score +
          (processBullets (candidate env s obs2b).bullets
            (candidate env s obs2b).enemies).2.2 := rfl
    obtain ⟨-, -, ⟨k, -, -, hk⟩, -⟩ :=
      processBullets_spec (candidate env s obs2b).bullets (candidate env s obs2b).enemies
    refine ⟨k, ?_⟩
    rw [hsc, hk]
    rfl

/-- C9 witness: the theorem on sDrop9, whose obstacle scrolled to -61 is
dropped for one point while the freshly spawned obstacle at 800 is kept. -/
theorem claim_C9_obstacle_drop_witness :
    sDrop9After.obstacles = obsDrop9.filter keepObstacle ∧
    (∃ k : ℕ, sDrop9After.score =
      sDrop9.score + (obsDrop9.countP (fun o => decide (o.x + o.width < 0)) : ℚ) +
        10 * k) :=
  claim_C9_obstacle_drop quietEnv sDrop9 sDrop9After obsDrop9 rfl
    (by norm_num [spawnObstacle, scrollObstacles, newObstacle, quietEnv, sDrop9,
      obsDrop9, CANVAS_WIDTH, OBSTACLE_WIDTH, OBSTACLE_GAP,
      List.getLast?, List.getLast])
    (by norm_num [tick, physicsSpawn, candidate, spawnObstacle, scrollObstacles,
      newObstacle, keepObstacle, pruneObstacles, stepBullets, stepEnemies,
      spawnStepEnemies, clampBird, clampedY, clampedVel, integratedY, integratedVel,
      checkCollisions, birdCollisionFlag, processBullets, findHitRev, bulletHitsEnemy,
      birdHitsEnemy, birdHitsObstacle, distLt, quietEnv, sDrop9, sDrop9After,
      CANVAS_WIDTH, CANVAS_HEIGHT, GRAVITY, JUMP_FORCE, BIRD_SIZE, BULLET_SIZE,
      BULLET_SPEED, OBSTACLE_WIDTH, OBSTACLE_GAP, ENEMY_SIZE,
      List.getLast?, List.getLast, List.filter, List.countP, List.countP.go])

/-- C10: the fire operation is the identity unless the run is active and the
character alive; when it applies it appends exactly one bullet at
x + size, y + size / 2 with the fixed speed and size, touching no other
field. -/
theorem claim_C10_fire (s : GameState) :
    (s.gameRunning = true → s.gameOver = false →
      handleShoot s = { s with bullets := s.bullets ++ [newBullet s.bird] }) ∧
    (s.gameRunning = false ∨ s.gameOver = true → handleShoot s = s) := by
  constructor
  · intro h1 h2
    simp [handleShoot, h1, h2]
  · intro h
    rcases h with h | h
    · simp [handleShoot, h]
    · simp [handleShoot, h]

/-- C10 witness: fire appends a bullet on the running state sCalm and is the
identity on the non-running state sIdle. -/
theorem claim_C10_fire_witness :
    handleShoot sCalm = { sCalm with bullets := sCalm.bullets ++ [newBullet sCalm.bird] } ∧
    handleShoot sIdle = sIdle :=
  ⟨(claim_C10_fire sCalm).1 rfl rfl, (claim_C10_fire sIdle).2 (Or.inl rfl)⟩
